import Mathlib

/-!
Verification development for the InsurLit repository.

The Python sources (src/app.py, src/document_processing.py,
src/gemini_integration.py, src/readability.py, src/pdf_export.py) are
shallowly embedded below.  External effects are made explicit:

* the generative-model service is an oracle — the responses the model
  would return are passed in as plain string arguments, and each
  function additionally returns the number of model calls it issued;
* Python exceptions are modelled by the `PyResult` type;
* Python `str` operations used by the sources are re-implemented over
  `List Char` by structural recursion so that every definition is
  executable by kernel reduction.
-/

/-! ### Python string primitives (ASCII model) -/

/-- Python `str.strip` on a character list: drop whitespace at both ends. -/
def pyStripList (l : List Char) : List Char :=
  ((l.dropWhile Char.isWhitespace).reverse.dropWhile Char.isWhitespace).reverse

/-- Python `str.strip`. -/
def pyStrip (s : String) : String := String.mk (pyStripList s.data)

/-- Python `str.lower` (ASCII model). -/
def pyLower (s : String) : String := String.mk (s.data.map Char.toLower)

/-- Python `str.startswith`. -/
def pyStartsWith (s p : String) : Bool := p.data.isPrefixOf s.data

/-- Contiguous-sublist test, used for Python `sub in s` on strings. -/
def isSubList (needle : List Char) : List Char → Bool
  | [] => needle.isEmpty
  | c :: t => needle.isPrefixOf (c :: t) || isSubList needle t

/-- Python `sub in s` on strings (substring containment). -/
def pyContainsSub (sub s : String) : Bool := isSubList sub.data s.data

/-- Worker for Python `str.split(sep)` with a non-empty separator.
`acc` is the current piece (reversed), `skip` counts separator
characters still to be consumed after a match. -/
def splitOnGo (sep : List Char) : List Char → List Char → Nat → List (List Char)
  | [], acc, _ => [acc.reverse]
  | _ :: t, acc, Nat.succ k => splitOnGo sep t acc k
  | c :: t, acc, 0 =>
      if sep.isPrefixOf (c :: t) then
        acc.reverse :: splitOnGo sep t [] (sep.length - 1)
      else
        splitOnGo sep t (c :: acc) 0

/-- Python `s.split(sep)` for a non-empty separator `sep`. -/
def pySplitOn (s sep : String) : List String :=
  (splitOnGo sep.data s.data [] 0).map String.mk

/-- Python `s.replace(pat, repl)` for a non-empty pattern:
split on the pattern and re-join with the replacement. -/
def pyReplace (s pat repl : String) : String :=
  String.mk (List.intercalate repl.data (splitOnGo pat.data s.data [] 0))

/-- Worker for Python `str.split()` (whitespace split, empties dropped). -/
def splitWsGo : List Char → List Char → List (List Char)
  | [], acc => if acc.isEmpty then [] else [acc.reverse]
  | c :: t, acc =>
      if c.isWhitespace then
        if acc.isEmpty then splitWsGo t [] else acc.reverse :: splitWsGo t []
      else
        splitWsGo t (c :: acc)

/-- Python `s.split()` — split on whitespace runs, dropping empty pieces. -/
def pySplitWs (s : String) : List String := (splitWsGo s.data []).map String.mk

/-- Python `str.isupper` (ASCII model): at least one cased character and
no lower-case character. -/
def pyIsUpper (s : String) : Bool :=
  s.data.any Char.isAlpha && s.data.all (fun c => !c.isLower)

/-- Result of running a piece of Python code: a value, or a raised
exception carrying a message. -/
inductive PyResult (α : Type) where
  | ok (val : α)
  | exn (msg : String)
deriving DecidableEq, Repr

/-! ### src/readability.py -/

/-- `calculate_readability_score` from src/readability.py.
`flesch` is the external `textstat.flesch_reading_ease` call, modelled as
an oracle: `none` means the library call raised. -/
def calculate_readability_score (flesch : String → Option ℚ) (text : String) : ℚ :=
  if text.isEmpty || (pyStrip text).data.length == 0 then 0
  else
    match flesch text with
    | some score => max 0 (min 100 score)
    | none => 0

/-! ### src/document_processing.py -/

/-- The header heuristic of `extract_text_from_pdf` (line 33 of
src/document_processing.py): stripped length under 50 and either some
whitespace-separated word is fully upper-case or the line itself is. -/
def headerCond (line : String) : Bool :=
  decide ((pyStrip line).data.length < 50) &&
    ((pySplitWs line).any pyIsUpper || pyIsUpper line)

/-- The header-collecting loop over the first five lines of a page's text
(lines 28–34 of src/document_processing.py). -/
def headersFor (page_text : String) : List String :=
  ((pySplitOn page_text "\n").take 5).foldl
    (fun headers line =>
      if headerCond line then headers ++ [pyStrip line] else headers) []

/-- Per-page record stored in the `page_info` map. -/
structure PageRec where
  text : String
  headers : List String
deriving DecidableEq, Repr

/-- The page loop of `extract_text_from_pdf`: `i` is the 1-based page
counter; a page whose `extract_text()` returned `None` contributes the
empty string. -/
def pdfPagesLoop : Nat → List (Option String) → String × List (Nat × PageRec)
  | _, [] => ("", [])
  | i, p :: rest =>
      let page_text := p.getD ""
      let r := pdfPagesLoop (i + 1) rest
      (page_text ++ "\n\n" ++ r.1, (i, ⟨page_text, headersFor page_text⟩) :: r.2)

/-- `extract_text_from_pdf` from src/document_processing.py.  The pages
are given as the list of `page.extract_text()` results (`none` when the
library yields nothing). -/
def extract_text_from_pdf (pages : List (Option String)) :
    String × List (Nat × PageRec) :=
  pdfPagesLoop 1 pages

/-- `extract_text_from_docx` from src/document_processing.py. -/
def extract_text_from_docx (paragraphs : List String) : String :=
  paragraphs.foldl (fun text p => text ++ p ++ "\n") ""

/-- Document metadata dictionary built by `extract_text`. -/
structure DocumentInfo where
  type : String
  file_name : String
  page_info : Option (List (Nat × PageRec))
deriving DecidableEq, Repr

/-- An uploaded file: declared media type, name, and the data each
extraction branch would see (PDF page texts, DOCX paragraphs, OCR
output, UTF-8 decode result — `none` when decoding would raise). -/
structure UploadedFile where
  type : String
  name : String
  pdfPages : List (Option String)
  docxParagraphs : List String
  ocrText : String
  txtDecoded : Option String
deriving DecidableEq, Repr

/-- The word-processing MIME type accepted by `extract_text`. -/
def docxMime : String :=
  "application/vnd.openxmlformats-officedocument.wordprocessingml.document"

/-- `extract_text` from src/document_processing.py: dispatch on the
declared media type; unsupported types raise `ValueError` (the `except`
clause only reports and re-raises, so the error propagates). -/
def extract_text (f : UploadedFile) : PyResult (String × DocumentInfo) :=
  if f.type = "application/pdf" then
    let r := extract_text_from_pdf f.pdfPages
    .ok (r.1, ⟨f.type, f.name, some r.2⟩)
  else if f.type = docxMime then
    .ok (extract_text_from_docx f.docxParagraphs, ⟨f.type, f.name, none⟩)
  else if f.type = "image/png" || f.type = "image/jpeg" || f.type = "image/jpg" then
    .ok (f.ocrText, ⟨f.type, f.name, none⟩)
  else if f.type = "text/plain" then
    match f.txtDecoded with
    | some t => .ok (t, ⟨f.type, f.name, none⟩)
    | none => .exn "UnicodeDecodeError"
  else
    .exn ("Unsupported file type: " ++ f.type)

/-! ### A model of Python's `json.loads`

JSON values as Python would hold them after `json.loads`.  Numerals are
modelled as integers only: a fractional or exponent numeral makes the
parse fail in this model (none of the properties verified here involve
floating-point payloads). -/

/-- A parsed JSON value (Python object after `json.loads`). -/
inductive JsonVal where
  | null
  | bool (b : Bool)
  | num (n : Int)
  | str (s : String)
  | arr (xs : List JsonVal)
  | obj (kvs : List (String × JsonVal))

/-- The character `\x7b` (opening curly brace). -/
def lbrace : Char := Char.ofNat 123

/-- The character `\x7d` (closing curly brace). -/
def rbrace : Char := Char.ofNat 125

/-- Skip JSON whitespace. -/
def skipWs : List Char → List Char
  | [] => []
  | c :: t =>
      if c = ' ' ∨ c = '\t' ∨ c = '\n' ∨ c = '\r' then skipWs t else c :: t

/-- Value of a hexadecimal digit. -/
def hexDigitVal (c : Char) : Option Nat :=
  if c.isDigit then some (c.toNat - '0'.toNat)
  else if 'a' ≤ c ∧ c ≤ 'f' then some (c.toNat - 'a'.toNat + 10)
  else if 'A' ≤ c ∧ c ≤ 'F' then some (c.toNat - 'A'.toNat + 10)
  else none

/-- Parse the body of a JSON string (after the opening quote), handling
the escape sequences of the JSON grammar; rejects control characters
and invalid escapes like `json.loads` in strict mode. -/
def parseStrBody : Nat → List Char → List Char → Option (String × List Char)
  | 0, _, _ => none
  | _ + 1, [], _ => none
  | fuel + 1, c :: t, acc =>
      if c = '"' then some (String.mk acc.reverse, t)
      else if c = '\\' then
        match t with
        | [] => none
        | e :: t2 =>
            if e = '"' then parseStrBody fuel t2 ('"' :: acc)
            else if e = '\\' then parseStrBody fuel t2 ('\\' :: acc)
            else if e = '/' then parseStrBody fuel t2 ('/' :: acc)
            else if e = 'b' then parseStrBody fuel t2 (Char.ofNat 8 :: acc)
            else if e = 'f' then parseStrBody fuel t2 (Char.ofNat 12 :: acc)
            else if e = 'n' then parseStrBody fuel t2 ('\n' :: acc)
            else if e = 'r' then parseStrBody fuel t2 ('\r' :: acc)
            else if e = 't' then parseStrBody fuel t2 ('\t' :: acc)
            else if e = 'u' then
              match t2 with
              | h1 :: h2 :: h3 :: h4 :: t3 =>
                  match hexDigitVal h1, hexDigitVal h2,
                        hexDigitVal h3, hexDigitVal h4 with
                  | some a, some b, some c2, some d =>
                      parseStrBody fuel t3
                        (Char.ofNat (((a * 16 + b) * 16 + c2) * 16 + d) :: acc)
                  | _, _, _, _ => none
              | _ => none
            else none
      else if c.toNat < 32 then none
      else parseStrBody fuel t (c :: acc)

/-- Take a maximal run of decimal digits. -/
def takeDigits : List Char → List Char × List Char
  | [] => ([], [])
  | c :: t =>
      if c.isDigit then
        let r := takeDigits t
        (c :: r.1, r.2)
      else ([], c :: t)

/-- Decimal digits to a natural number. -/
def digitsToNat (l : List Char) : Nat :=
  l.foldl (fun n c => n * 10 + (c.toNat - '0'.toNat)) 0

/-- Parse an unsigned integer numeral; fractional or exponent numerals
are outside this model and fail. -/
def parseNumCore (t : List Char) : Option (Nat × List Char) :=
  let r := takeDigits t
  if r.1.isEmpty then none
  else
    match r.2 with
    | '.' :: _ => none
    | 'e' :: _ => none
    | 'E' :: _ => none
    | rest => some (digitsToNat r.1, rest)

/-- Parse a (possibly negative) integer numeral. -/
def parseNumber (cs : List Char) : Option (Int × List Char) :=
  match cs with
  | '-' :: t =>
      match parseNumCore t with
      | some (n, rest) => some (-(n : Int), rest)
      | none => none
  | t =>
      match parseNumCore t with
      | some (n, rest) => some ((n : Int), rest)
      | none => none

mutual

/-- Parse one JSON value (fuel-indexed recursive-descent). -/
def parseVal : Nat → List Char → Option (JsonVal × List Char)
  | 0, _ => none
  | fuel + 1, cs =>
      match skipWs cs with
      | [] => none
      | c :: rest =>
          if c = '"' then
            match parseStrBody (fuel + 1) rest [] with
            | some (s, r) => some (.str s, r)
            | none => none
          else if c = '[' then
            match skipWs rest with
            | ']' :: r2 => some (.arr [], r2)
            | _ =>
                match parseItems fuel rest with
                | some (xs, r) => some (.arr xs, r)
                | none => none
          else if c = lbrace then
            match skipWs rest with
            | d :: r2 =>
                if d = rbrace then some (.obj [], r2)
                else
                  match parseMembers fuel rest with
                  | some (kvs, r) => some (.obj kvs, r)
                  | none => none
            | [] => none
          else if c = 'n' then
            match rest with
            | 'u' :: 'l' :: 'l' :: r => some (.null, r)
            | _ => none
          else if c = 't' then
            match rest with
            | 'r' :: 'u' :: 'e' :: r => some (.bool true, r)
            | _ => none
          else if c = 'f' then
            match rest with
            | 'a' :: 'l' :: 's' :: 'e' :: r => some (.bool false, r)
            | _ => none
          else
            match parseNumber (c :: rest) with
            | some (n, r) => some (.num n, r)
            | none => none

/-- Parse the comma-separated items of a non-empty JSON array, up to and
including the closing bracket. -/
def parseItems : Nat → List Char → Option (List JsonVal × List Char)
  | 0, _ => none
  | fuel + 1, cs =>
      match parseVal fuel cs with
      | none => none
      | some (v, rest) =>
          match skipWs rest with
          | ',' :: r2 =>
              match parseItems fuel r2 with
              | some (xs, r3) => some (v :: xs, r3)
              | none => none
          | ']' :: r2 => some ([v], r2)
          | _ => none

/-- Parse the members of a non-empty JSON object, up to and including
the closing brace. -/
def parseMembers : Nat → List Char → Option (List (String × JsonVal) × List Char)
  | 0, _ => none
  | fuel + 1, cs =>
      match skipWs cs with
      | [] => none
      | c :: rest =>
          if c = '"' then
            match parseStrBody (fuel + 1) rest [] with
            | some (k, r1) =>
                match skipWs r1 with
                | ':' :: r2 =>
                    match parseVal fuel r2 with
                    | some (v, r3) =>
                        match skipWs r3 with
                        | ',' :: r4 =>
                            match parseMembers fuel r4 with
                            | some (kvs, r5) => some ((k, v) :: kvs, r5)
                            | none => none
                        | d :: r4 =>
                            if d = rbrace then some ([(k, v)], r4) else none
                        | [] => none
                    | none => none
                | _ => none
            | none => none
          else none

end

/-- Python `json.loads`: parse one value and require only whitespace to
remain; `none` models a raised `JSONDecodeError`. -/
def json_loads (s : String) : Option JsonVal :=
  match parseVal (2 * s.data.length + 8) s.data with
  | some (v, rest) => if (skipWs rest).isEmpty then some v else none
  | none => none

/-! ### src/gemini_integration.py -/

/-- The `expected_keys` list of `generate_summary` (lines 158–161 of
src/gemini_integration.py). -/
def expected_keys : List String :=
  ["coverage_details", "exclusions", "deductibles",
   "premiums", "claims_process", "unusual_clauses"]

/-- Python equality of a parsed JSON element against a string: true
exactly for the equal string value. -/
def jsonEqStr (v : JsonVal) (key : String) : Bool :=
  match v with
  | .str s => s = key
  | _ => false

/-- Python `key in summary` for the parsed JSON value: key lookup on a
dict, element equality on a list, substring test on a str, and a
`TypeError` on non-iterable values. -/
def pyIn (key : String) : JsonVal → PyResult Bool
  | .obj kvs => .ok (kvs.any (fun kv => kv.1 = key))
  | .arr xs => .ok (xs.any (fun v => jsonEqStr v key))
  | .str s => .ok (pyContainsSub key s)
  | _ => .exn "TypeError: argument is not iterable"

/-- Python `summary[key] = x`: insertion on a dict, `TypeError` on any
other parsed value. -/
def pySetItem (v : JsonVal) (key : String) (x : JsonVal) : PyResult JsonVal :=
  match v with
  | .obj kvs =>
      if kvs.any (fun kv => kv.1 = key) then
        .ok (.obj (kvs.map (fun kv => if kv.1 = key then (key, x) else kv)))
      else .ok (.obj (kvs ++ [(key, x)]))
  | _ => .exn "TypeError: object does not support item assignment"

/-- The back-fill loop of `generate_summary` (lines 163–165 of
src/gemini_integration.py): `for key in expected_keys: if key not in
summary: summary[key] = []`. -/
def ensureKeysLoop : List String → JsonVal → PyResult JsonVal
  | [], summary => .ok summary
  | key :: rest, summary =>
      match pyIn key summary with
      | .exn e => .exn e
      | .ok b =>
          if b then ensureKeysLoop rest summary
          else
            match pySetItem summary key (.arr []) with
            | .ok s2 => ensureKeysLoop rest s2
            | .exn e => .exn e

/-- The six-key summary dict literal that `generate_summary` builds on
its degraded paths, with the given `coverage_details` entries and the
five other lists empty. -/
def mkSummaryDict (coverage : List String) : JsonVal :=
  .obj [("coverage_details", .arr (coverage.map .str)),
        ("exclusions", .arr []),
        ("deductibles", .arr []),
        ("premiums", .arr []),
        ("claims_process", .arr []),
        ("unusual_clauses", .arr [])]

/-- `setup_gemini` from src/gemini_integration.py: false when the
`GEMINI_API_KEY` environment value is absent or empty (Python falsy). -/
def setup_gemini (apiKey : Option String) : Bool :=
  match apiKey with
  | none => false
  | some k => !k.data.isEmpty

/-- The document-type string computed on a failed classification
(line 59 / 215 of src/gemini_integration.py). -/
def documentTypeOf (verification_result : String) : String :=
  if pyContainsSub ":" verification_result then
    pyStrip (pyReplace verification_result "no:" "")
  else "not an auto insurance policy"

/-- The six-key record returned by `generate_summary` when the
classification pre-check does not confirm an auto-insurance policy. -/
def notAutoSummary (verification_result : String) : JsonVal :=
  mkSummaryDict ["This document appears to be "
    ++ documentTypeOf verification_result
    ++ ". Please upload an auto insurance policy document."]

/-- Code-fence stripping of `generate_summary` (lines 133–138 of
src/gemini_integration.py). -/
def extract_json_content (response_text : String) : String :=
  if pyContainsSub "```json" response_text
      && pyContainsSub "```" response_text then
    pyStrip ((pySplitOn ((pySplitOn response_text "```json").getD 1 "")
      "```").getD 0 "")
  else if pyContainsSub "```" response_text then
    pyStrip ((pySplitOn ((pySplitOn response_text "```").getD 1 "")
      "```").getD 0 "")
  else response_text

/-- `generate_summary` from src/gemini_integration.py.  The two model
round-trips are oracles: `verificationResponse` is what the
classification call would return and `mainResponse` what the
summarization call would return.  The second component counts the
`generate_content` calls issued. -/
def generate_summary (apiKey : Option String) (text : String)
    (document_info : Option DocumentInfo) (readability_preference : String)
    (verificationResponse mainResponse : String) : JsonVal × Nat :=
  if !setup_gemini apiKey then
    (mkSummaryDict ["API key not configured. Unable to generate summary."], 0)
  else
    let verification_result := pyLower (pyStrip verificationResponse)
    if !pyStartsWith verification_result "yes" then
      (notAutoSummary verification_result, 1)
    else
      let json_content := extract_json_content mainResponse
      let json_content := pyReplace json_content "\\" "\\\\"
      let summary : JsonVal :=
        match json_loads json_content with
        | some v => v
        | none => mkSummaryDict
            ["Could not generate detailed summary. Please try uploading the document again."]
      match ensureKeysLoop expected_keys summary with
      | .ok s => (s, 2)
      | .exn e => (mkSummaryDict ["Error generating summary: " ++ e], 2)

/-- `answer_question` from src/gemini_integration.py, with the two model
round-trips as oracles; the second component counts model calls. -/
def answer_question (apiKey : Option String) (question document_text : String)
    (document_info : Option DocumentInfo) (readability_preference : String)
    (verificationResponse mainResponse : String) : String × Nat :=
  if !setup_gemini apiKey then
    ("API key not configured. Unable to answer questions.", 0)
  else
    let verification_result := pyLower (pyStrip verificationResponse)
    if !pyStartsWith verification_result "yes" then
      ("I cannot answer your question because this document appears to be "
        ++ documentTypeOf verification_result
        ++ ". Please upload an auto insurance policy document.", 1)
    else
      (mainResponse, 2)

/-! ### src/pdf_export.py -/

/-- A `SummaryRecord` as consumed by `generate_pdf`: the six fixed
lists (the `summary.get(key, [])` lookups of lines 56–61). -/
structure Summary where
  coverage_details : List String
  exclusions : List String
  deductibles : List String
  premiums : List String
  claims_process : List String
  unusual_clauses : List String
deriving DecidableEq, Repr

/-- Python `f"\x7bx:.1f\x7d"` on a rational: one decimal digit,
rounding the tenths half-to-even. -/
def fmt1f (q : ℚ) : String :=
  let n10 : Int := q.num * 10
  let d : Int := (q.den : Int)
  let f : Int := n10.fdiv d
  let r : Int := n10 - f * d
  let t : Int :=
    if 2 * r < d then f
    else if d < 2 * r then f + 1
    else if f % 2 = 0 then f else f + 1
  if t < 0 then
    "-" ++ toString ((-t).toNat / 10) ++ "." ++ toString ((-t).toNat % 10)
  else
    toString (t.toNat / 10) ++ "." ++ toString (t.toNat % 10)

/-- The score-to-label mapping of `generate_pdf` (lines 39–44 of
src/pdf_export.py). -/
def pdfDifficulty (readability_score : ℚ) : String :=
  if readability_score ≤ 50 then "Very Difficult"
  else if readability_score ≤ 70 then "Moderate"
  else "Clear"

/-- The closing disclaimer paragraph of the exported report. -/
def pdfDisclaimer : String :=
  "Disclaimer: This summary was generated using AI technology and is intended as a guide only. It is not a legal interpretation of your insurance policy. Always consult with an insurance professional for important decisions."

/-- The titled sections of `generate_pdf` (lines 55–62 of
src/pdf_export.py), in render order. -/
def sectionPairs (summary : Summary) : List (String × List String) :=
  [("Coverage Details", summary.coverage_details),
   ("Exclusions", summary.exclusions),
   ("Deductibles", summary.deductibles),
   ("Premiums", summary.premiums),
   ("Claims Process", summary.claims_process),
   ("Unusual or Hidden Clauses", summary.unusual_clauses)]

/-- The lines one section contributes to the report: nothing when its
list is empty, otherwise the title followed by one bullet per item
(each item cleaned by the `replace` of line 72). -/
def sectionBlock (p : String × List String) : List String :=
  if p.2.isEmpty then []
  else p.1 :: p.2.map (fun item => "- " ++ pyReplace item "â€¢" "-")

/-- `generate_pdf` from src/pdf_export.py, abstracted to the sequence
of text lines written to the document (`now` is the wall-clock
timestamp string). -/
def generate_pdf (summary : Option Summary) (original_text : String)
    (readability_score : ℚ) (now : String) : List String :=
  ["ClearInsurance - Policy Summary",
   "Generated on: " ++ now,
   "Readability Analysis",
   "Readability Score: " ++ fmt1f readability_score ++ " - "
     ++ pdfDifficulty readability_score,
   "Policy Summary"]
  ++ (match summary with
      | none => []
      | some s => ((sectionPairs s).map sectionBlock).flatten)
  ++ [pdfDisclaimer]

/-! ### src/app.py -/

/-- The session state of the app (the `st.session_state` fields used by
the upload handler). -/
structure SessionState where
  extracted_text : String
  document_info : Option DocumentInfo
  summary : Option JsonVal
  readability_score : Option ℚ
  qa_history : List (String × String)
  readability_preference : String

/-- The file-upload handler of src/app.py (lines 51–75): reset the
conversation history, then extract, score and summarize the new
document; an extraction failure leaves the remaining fields untouched
(the exception is caught and reported). -/
def handleUpload (s : SessionState) (f : UploadedFile)
    (flesch : String → Option ℚ) (apiKey : Option String)
    (verResp mainResp : String) : SessionState :=
  let s0 := { s with qa_history := [] }
  match extract_text f with
  | .exn _ => s0
  | .ok r =>
      let s1 := { s0 with extracted_text := r.1, document_info := some r.2 }
      let s2 := { s1 with
        readability_score := some (calculate_readability_score flesch r.1) }
      { s2 with
        summary := some (generate_summary apiKey r.1 (some r.2)
          s2.readability_preference verResp mainResp).1 }

/-! ### Theorems -/

/-- Unfolding the header-collecting fold into a filter-and-map. -/
theorem headers_foldl_eq (lines : List String) (acc : List String) :
    lines.foldl
        (fun headers line =>
          if headerCond line then headers ++ [pyStrip line] else headers) acc
      = acc ++ (lines.filter headerCond).map pyStrip := by
  induction lines generalizing acc with
  | nil => simp
  | cons l t ih =>
      by_cases h : headerCond l <;>
        simp [List.foldl_cons, h, ih, List.filter_cons]

/-- C6 (amended): a string is listed as a header candidate of a page
exactly when it is the stripped form of one of the first five lines of
the page text whose stripped length is strictly below 50 and which
contains a fully upper-case word or is fully upper-case. -/
theorem header_candidate_iff (page_text s : String) :
    s ∈ headersFor page_text ↔
      ∃ line, line ∈ (pySplitOn page_text "\n").take 5 ∧
        (pyStrip line).data.length < 50 ∧
        ((pySplitWs line).any pyIsUpper = true ∨ pyIsUpper line = true) ∧
        s = pyStrip line := by
  unfold headersFor
  rw [headers_foldl_eq]
  simp only [List.nil_append, List.mem_map, List.mem_filter, headerCond,
    Bool.and_eq_true, Bool.or_eq_true, decide_eq_true_eq]
  constructor
  · rintro ⟨line, ⟨hmem, hlen, hcase⟩, hs⟩
    exact ⟨line, hmem, hlen, hcase, hs.symm⟩
  · rintro ⟨line, hmem, hlen, hcase, hs⟩
    exact ⟨line, ⟨hmem, hlen, hcase⟩, hs.symm⟩

/-- C6 (counterexample): a fully upper-case line of stripped length
exactly 50 satisfies the claim's "at most 50 characters" condition and
sits on the first line of the page, yet is not listed as a header
candidate — the source requires the stripped length to be strictly
below 50. -/
theorem header_candidate_len50_counterexample :
    (pyStrip "AAAAAAAAAAAAAAAAAAAAAAAAAAAAAAAAAAAAAAAAAAAAAAAAAA").data.length = 50 ∧
    pyIsUpper "AAAAAAAAAAAAAAAAAAAAAAAAAAAAAAAAAAAAAAAAAAAAAAAAAA" = true ∧
    "AAAAAAAAAAAAAAAAAAAAAAAAAAAAAAAAAAAAAAAAAAAAAAAAAA" ∈
      (pySplitOn "AAAAAAAAAAAAAAAAAAAAAAAAAAAAAAAAAAAAAAAAAAAAAAAAAA" "\n").take 5 ∧
    headersFor "AAAAAAAAAAAAAAAAAAAAAAAAAAAAAAAAAAAAAAAAAAAAAAAAAA" = [] := by
  refine ⟨by decide, by decide, by decide, by decide⟩

/-- Closed form of the PDF page loop, for any starting page number. -/
theorem pdfPagesLoop_spec (pages : List (Option String)) : ∀ i : Nat,
    pdfPagesLoop i pages
      = ((pages.map (fun p => p.getD "" ++ "\n\n")).foldr (· ++ ·) "",
         List.zipWith
           (fun idx p =>
             (idx, (⟨p.getD "", headersFor (p.getD "")⟩ : PageRec)))
           (List.range' i pages.length) pages) := by
  induction pages with
  | nil => intro i; simp [pdfPagesLoop]
  | cons p t ih =>
      intro i
      simp [pdfPagesLoop, ih (i + 1), List.range', String.append_assoc]

/-- Keys of the zipped page-info list are the index range itself. -/
theorem zipWith_info_keys (pages : List (Option String)) : ∀ i : Nat,
    (List.zipWith
        (fun idx p =>
          (idx, (⟨p.getD "", headersFor (p.getD "")⟩ : PageRec)))
        (List.range' i pages.length) pages).map Prod.fst
      = List.range' i pages.length := by
  induction pages with
  | nil => intro i; simp
  | cons p t ih => intro i; simp [List.range', ih (i + 1)]

/-- C7: `extract_text_from_pdf` returns the concatenation, in page
order, of each page's text (empty string when extraction yields
nothing) followed by the separator, together with a page-indexed
metadata list whose keys are exactly the 1-based page numbers 1..n and
whose entries carry the page's raw text and header candidates. -/
theorem extract_pdf_spec (pages : List (Option String)) :
    (extract_text_from_pdf pages).1
        = (pages.map (fun p => p.getD "" ++ "\n\n")).foldr (· ++ ·) ""
    ∧ (extract_text_from_pdf pages).2
        = List.zipWith
            (fun idx p =>
              (idx, (⟨p.getD "", headersFor (p.getD "")⟩ : PageRec)))
            (List.range' 1 pages.length) pages
    ∧ ((extract_text_from_pdf pages).2).map Prod.fst
        = List.range' 1 pages.length := by
  have h := pdfPagesLoop_spec pages 1
  unfold extract_text_from_pdf
  refine ⟨by rw [h], by rw [h], ?_⟩
  rw [h, zipWith_info_keys pages 1]

/-- C2: the readability score is always within [0,100]; empty or
whitespace-only input yields 0; a failing library call is degraded to 0
rather than propagated. -/
theorem readability_score_spec (flesch : String → Option ℚ) (text : String) :
    (0 ≤ calculate_readability_score flesch text
      ∧ calculate_readability_score flesch text ≤ 100)
    ∧ ((pyStrip text).data.length = 0 → calculate_readability_score flesch text = 0)
    ∧ (flesch text = none → calculate_readability_score flesch text = 0) := by
  unfold calculate_readability_score
  cases hc : (text.isEmpty || (pyStrip text).data.length == 0) with
  | true =>
      rw [if_pos rfl]
      exact ⟨⟨le_refl 0, by norm_num⟩, fun _ => rfl, fun _ => rfl⟩
  | false =>
      rw [if_neg Bool.false_ne_true]
      cases hf : flesch text with
      | none => exact ⟨⟨le_refl 0, by norm_num⟩, fun _ => rfl, fun _ => rfl⟩
      | some q =>
          refine ⟨⟨le_max_left 0 _, max_le (by norm_num) (min_le_left _ _)⟩,
            ?_, ?_⟩
          · intro hlen
            have h2 := (Bool.or_eq_false_iff.mp hc).2
            rw [hlen] at h2
            simp at h2
          · intro hnone
            exact Option.noConfusion hnone

/-- Witness for C2 at concrete inputs: a whitespace-only string scores
0 even when the library would return 150, and a normal string's score
is within bounds. -/
theorem readability_score_spec_witness :
    ((pyStrip "   ").data.length = 0
      ∧ calculate_readability_score (fun _ => some 150) "   " = 0)
    ∧ (0 ≤ calculate_readability_score (fun _ => some 150) "abc"
      ∧ calculate_readability_score (fun _ => some 150) "abc" ≤ 100) :=
  ⟨⟨by decide,
    (readability_score_spec (fun _ => some 150) "   ").2.1 (by decide)⟩,
   (readability_score_spec (fun _ => some 150) "abc").1⟩

/-- C4: an uploaded file whose declared media type is not PDF, the
word-processing type, PNG/JPEG (including `image/jpg`), or plain text
makes `extract_text` fail with the unsupported-type error, returning no
extracted text or metadata. -/
theorem extract_text_unsupported (f : UploadedFile)
    (h : f.type ∉ ["application/pdf", docxMime, "image/png", "image/jpeg",
                   "image/jpg", "text/plain"]) :
    extract_text f = .exn ("Unsupported file type: " ++ f.type) := by
  simp only [List.mem_cons, List.not_mem_nil, or_false, not_or] at h
  obtain ⟨h1, h2, h3, h4, h5, h6⟩ := h
  simp [extract_text, h1, h2, h3, h4, h5, h6]

/-- Witness for C4: a zip upload is rejected with the unsupported-type
error. -/
theorem extract_text_unsupported_witness :
    ("application/zip" : String) ∉ ["application/pdf", docxMime, "image/png",
      "image/jpeg", "image/jpg", "text/plain"]
    ∧ extract_text ⟨"application/zip", "a.zip", [], [], "", none⟩
        = .exn ("Unsupported file type: " ++ "application/zip") :=
  ⟨by decide,
   extract_text_unsupported ⟨"application/zip", "a.zip", [], [], "", none⟩
     (by decide)⟩

/-- C9: with the service credential absent (or empty, which Python
treats as falsy), `generate_summary` returns the degraded six-key
record and `answer_question` the degraded string, each carrying the
explanatory message, and neither issues any model call. -/
theorem missing_credential_degrades (apiKey : Option String)
    (text question : String) (info : Option DocumentInfo)
    (pref verResp mainResp : String)
    (h : apiKey = none ∨ apiKey = some "") :
    generate_summary apiKey text info pref verResp mainResp
        = (mkSummaryDict ["API key not configured. Unable to generate summary."], 0)
    ∧ answer_question apiKey question text info pref verResp mainResp
        = ("API key not configured. Unable to answer questions.", 0) := by
  have hs : setup_gemini apiKey = false := by
    rcases h with h | h <;> subst h <;> rfl
  constructor
  · simp [generate_summary, hs]
  · simp [answer_question, hs]

/-- Witness for C9 at a concrete input with no credential. -/
theorem missing_credential_degrades_witness :
    generate_summary none "policy" none "Easy (Elementary School Level)"
        "yes" "resp"
      = (mkSummaryDict ["API key not configured. Unable to generate summary."], 0)
    ∧ answer_question none "q" "policy" none "Easy (Elementary School Level)"
        "yes" "resp"
      = ("API key not configured. Unable to answer questions.", 0) :=
  missing_credential_degrades none "policy" "q" none
    "Easy (Elementary School Level)" "yes" "resp" (Or.inl rfl)

/-- C3: when the classification response does not affirmatively start
with "yes" (after strip and lower-casing), `generate_summary` returns
the record naming the detected document type and `answer_question` the
corresponding answer string, and both have issued exactly one model
call — the classification call — with no further calls. -/
theorem classification_short_circuit (apiKey : Option String)
    (text question : String) (info : Option DocumentInfo)
    (pref verResp mainResp : String)
    (hkey : setup_gemini apiKey = true)
    (hver : pyStartsWith (pyLower (pyStrip verResp)) "yes" = false) :
    generate_summary apiKey text info pref verResp mainResp
        = (notAutoSummary (pyLower (pyStrip verResp)), 1)
    ∧ answer_question apiKey question text info pref verResp mainResp
        = ("I cannot answer your question because this document appears to be "
            ++ documentTypeOf (pyLower (pyStrip verResp))
            ++ ". Please upload an auto insurance policy document.", 1) := by
  constructor
  · simp [generate_summary, hkey, hver]
  · simp [answer_question, hkey, hver]

/-- Witness for C3: a "No: a lease agreement" classification verdict
short-circuits both functions after one model call. -/
theorem classification_short_circuit_witness :
    setup_gemini (some "key") = true
    ∧ pyStartsWith (pyLower (pyStrip "No: a lease agreement")) "yes" = false
    ∧ generate_summary (some "key") "doc text" none
        "Easy (Elementary School Level)" "No: a lease agreement" "unused"
      = (notAutoSummary (pyLower (pyStrip "No: a lease agreement")), 1)
    ∧ answer_question (some "key") "Am I covered?" "doc text" none
        "Easy (Elementary School Level)" "No: a lease agreement" "unused"
      = ("I cannot answer your question because this document appears to be "
          ++ documentTypeOf (pyLower (pyStrip "No: a lease agreement"))
          ++ ". Please upload an auto insurance policy document.", 1) :=
  ⟨by decide, by decide,
   (classification_short_circuit (some "key") "doc text" "Am I covered?" none
      "Easy (Elementary School Level)" "No: a lease agreement" "unused"
      (by decide) (by decide)).1,
   (classification_short_circuit (some "key") "doc text" "Am I covered?" none
      "Easy (Elementary School Level)" "No: a lease agreement" "unused"
      (by decide) (by decide)).2⟩

/-- Running the back-fill loop on a dict: it stays a dict, afterwards
every processed key is present, and presence of any key is preserved. -/
theorem ensureKeysLoop_obj (keys : List String) :
    ∀ kvs : List (String × JsonVal), ∃ kvs2,
      ensureKeysLoop keys (.obj kvs) = .ok (.obj kvs2)
      ∧ (∀ key, key ∈ keys → kvs2.any (fun kv => kv.1 = key) = true)
      ∧ (∀ key, kvs.any (fun kv => kv.1 = key) = true →
          kvs2.any (fun kv => kv.1 = key) = true) := by
  induction keys with
  | nil =>
      intro kvs
      exact ⟨kvs, rfl, by simp, fun _ h => h⟩
  | cons k rest ih =>
      intro kvs
      by_cases hk : kvs.any (fun kv => kv.1 = k) = true
      · obtain ⟨kvs2, h1, h2, h3⟩ := ih kvs
        refine ⟨kvs2, ?_, ?_, h3⟩
        · simp [ensureKeysLoop, pyIn, hk, h1]
        · intro key hmem
          rcases List.mem_cons.mp hmem with h | h
          · subst h; exact h3 key hk
          · exact h2 key h
      · obtain ⟨kvs2, h1, h2, h3⟩ := ih (kvs ++ [(k, JsonVal.arr [])])
        refine ⟨kvs2, ?_, ?_, ?_⟩
        · simp only [Bool.not_eq_true] at hk
          simp [ensureKeysLoop, pyIn, hk, pySetItem, h1]
        · intro key hmem
          rcases List.mem_cons.mp hmem with h | h
          · subst h
            exact h3 key (by simp)
          · exact h2 key h
        · intro key hpres
          exact h3 key (by simp [hpres])

/-- Running the back-fill loop on a non-dict value either raises or
returns the value unchanged. -/
theorem ensureKeysLoop_nonobj (keys : List String) :
    ∀ v w : JsonVal, (∀ kvs, v ≠ .obj kvs) →
      ensureKeysLoop keys v = .ok w → w = v := by
  induction keys with
  | nil =>
      intro v w _ h
      simp only [ensureKeysLoop] at h
      cases h
      rfl
  | cons k rest ih =>
      intro v w hv h
      cases v with
      | obj kvs => exact absurd rfl (hv kvs)
      | arr xs =>
          cases hb : xs.any (fun x => jsonEqStr x k) with
          | true =>
              have h' : ensureKeysLoop rest (.arr xs) = .ok w := by
                simpa [ensureKeysLoop, pyIn, hb] using h
              exact ih _ _ (fun kvs hc => JsonVal.noConfusion hc) h'
          | false =>
              simp [ensureKeysLoop, pyIn, hb, pySetItem] at h
      | str s =>
          cases hb : pyContainsSub k s with
          | true =>
              have h' : ensureKeysLoop rest (.str s) = .ok w := by
                simpa [ensureKeysLoop, pyIn, hb] using h
              exact ih _ _ (fun kvs hc => JsonVal.noConfusion hc) h'
          | false =>
              simp [ensureKeysLoop, pyIn, hb, pySetItem] at h
      | null => simp [ensureKeysLoop, pyIn] at h
      | bool b => simp [ensureKeysLoop, pyIn] at h
      | num n => simp [ensureKeysLoop, pyIn] at h

/-- The degraded six-key dict contains every expected key. -/
theorem mkSummaryDict_keys (coverage : List String) :
    ∀ key, key ∈ expected_keys →
      ∀ kvs, mkSummaryDict coverage = .obj kvs →
        kvs.any (fun kv => kv.1 = key) = true := by
  intro key hkey kvs h
  unfold mkSummaryDict at h
  injection h with h2
  rw [← h2]
  simp only [expected_keys, List.mem_cons, List.not_mem_nil, or_false] at hkey
  rcases hkey with rfl | rfl | rfl | rfl | rfl | rfl <;> rfl

/-- Keys of the value returned by the post-parse phase of
`generate_summary` (back-fill, or the error-handler dict): if it is a
dict, every expected key is present. -/
theorem ensureKeys_branch_keys (S : JsonVal) :
    ∀ kvs, (match ensureKeysLoop expected_keys S with
        | .ok s => (s, (2:Nat))
        | .exn e => (mkSummaryDict ["Error generating summary: " ++ e], 2)).1
          = .obj kvs →
      ∀ key, key ∈ expected_keys → kvs.any (fun kv => kv.1 = key) = true := by
  cases S with
  | obj kvs0 =>
      obtain ⟨kvs2, he, hkeys, _⟩ := ensureKeysLoop_obj expected_keys kvs0
      intro kvs h key hk
      rw [he] at h
      injection h with h2
      rw [← h2]
      exact hkeys key hk
  | null =>
      intro kvs h key hk
      cases he : ensureKeysLoop expected_keys JsonVal.null with
      | exn e =>
          rw [he] at h
          exact mkSummaryDict_keys _ key hk kvs h
      | ok w =>
          have hw := ensureKeysLoop_nonobj expected_keys JsonVal.null w
            (fun _ hc => JsonVal.noConfusion hc) he
          rw [he] at h
          rw [hw] at h
          exact JsonVal.noConfusion h
  | bool b =>
      intro kvs h key hk
      cases he : ensureKeysLoop expected_keys (JsonVal.bool b) with
      | exn e =>
          rw [he] at h
          exact mkSummaryDict_keys _ key hk kvs h
      | ok w =>
          have hw := ensureKeysLoop_nonobj expected_keys (JsonVal.bool b) w
            (fun _ hc => JsonVal.noConfusion hc) he
          rw [he] at h
          rw [hw] at h
          exact JsonVal.noConfusion h
  | num n =>
      intro kvs h key hk
      cases he : ensureKeysLoop expected_keys (JsonVal.num n) with
      | exn e =>
          rw [he] at h
          exact mkSummaryDict_keys _ key hk kvs h
      | ok w =>
          have hw := ensureKeysLoop_nonobj expected_keys (JsonVal.num n) w
            (fun _ hc => JsonVal.noConfusion hc) he
          rw [he] at h
          rw [hw] at h
          exact JsonVal.noConfusion h
  | str s =>
      intro kvs h key hk
      cases he : ensureKeysLoop expected_keys (JsonVal.str s) with
      | exn e =>
          rw [he] at h
          exact mkSummaryDict_keys _ key hk kvs h
      | ok w =>
          have hw := ensureKeysLoop_nonobj expected_keys (JsonVal.str s) w
            (fun _ hc => JsonVal.noConfusion hc) he
          rw [he] at h
          rw [hw] at h
          exact JsonVal.noConfusion h
  | arr xs =>
      intro kvs h key hk
      cases he : ensureKeysLoop expected_keys (JsonVal.arr xs) with
      | exn e =>
          rw [he] at h
          exact mkSummaryDict_keys _ key hk kvs h
      | ok w =>
          have hw := ensureKeysLoop_nonobj expected_keys (JsonVal.arr xs) w
            (fun _ hc => JsonVal.noConfusion hc) he
          rw [he] at h
          rw [hw] at h
          exact JsonVal.noConfusion h

/-- C1 (amended): whatever the model responses, whenever the value
returned by `generate_summary` is a dictionary it contains every one of
the six expected keys — any missing expected key having been
back-filled with an empty list.  (Extra keys and non-list values of a
well-formed JSON object response are retained, so "exactly six keys" is
not guaranteed.) -/
theorem generate_summary_expected_keys (apiKey : Option String)
    (text : String) (document_info : Option DocumentInfo)
    (readability_preference : String) (verResp mainResp : String) :
    ∀ kvs, (generate_summary apiKey text document_info
        readability_preference verResp mainResp).1 = .obj kvs →
      ∀ key, key ∈ expected_keys → kvs.any (fun kv => kv.1 = key) = true := by
  intro kvs h key hkey
  simp only [generate_summary] at h
  split at h
  · exact mkSummaryDict_keys _ key hkey kvs h
  · split at h
    · exact mkSummaryDict_keys _ key hkey kvs h
    · exact ensureKeys_branch_keys _ kvs h key hkey

/-- Witness for C1: an unparseable model response yields the degraded
dict, which contains the expected key "premiums". -/
theorem generate_summary_expected_keys_witness :
    (generate_summary (some "key") "t" none "p" "yes" "oops").1
      = JsonVal.obj
          [("coverage_details", JsonVal.arr [JsonVal.str
              "Could not generate detailed summary. Please try uploading the document again."]),
           ("exclusions", JsonVal.arr []), ("deductibles", JsonVal.arr []),
           ("premiums", JsonVal.arr []), ("claims_process", JsonVal.arr []),
           ("unusual_clauses", JsonVal.arr [])]
    ∧ "premiums" ∈ expected_keys
    ∧ ([("coverage_details", JsonVal.arr [JsonVal.str
          "Could not generate detailed summary. Please try uploading the document again."]),
        ("exclusions", JsonVal.arr []), ("deductibles", JsonVal.arr []),
        ("premiums", JsonVal.arr []), ("claims_process", JsonVal.arr []),
        ("unusual_clauses", JsonVal.arr [])].any
          (fun kv => kv.1 = "premiums") = true) :=
  ⟨rfl, by decide,
   generate_summary_expected_keys (some "key") "t" none "p" "yes" "oops"
     _ rfl "premiums" (by decide)⟩

/-- C1 (counterexample): a well-formed JSON object response with one
unexpected key makes `generate_summary` return a dictionary of seven
keys — the unexpected key is retained alongside the six back-filled
ones, so the result does not contain *exactly* the six fixed keys. -/
theorem generate_summary_extra_key_counterexample :
    (generate_summary (some "key") "t" none "p" "yes"
        "\x7b\"extra\": []\x7d").1
      = JsonVal.obj
          [("extra", JsonVal.arr []), ("coverage_details", JsonVal.arr []),
           ("exclusions", JsonVal.arr []), ("deductibles", JsonVal.arr []),
           ("premiums", JsonVal.arr []), ("claims_process", JsonVal.arr []),
           ("unusual_clauses", JsonVal.arr [])]
    ∧ "extra" ∉ expected_keys :=
  ⟨rfl, by decide⟩

/-- C10 (counterexample): a backslash-bearing payload whose escape is
`\n` still parses after the backslash doubling — to altered content
with a literal backslash — so `generate_summary` returns the model's
summary, not the degraded "could not parse" record. -/
theorem backslash_payload_parses_counterexample :
    '\\' ∈ "\x7b\"coverage_details\": [\"a\\nb\"]\x7d".data
    ∧ (generate_summary (some "key") "t" none "p" "yes"
        "\x7b\"coverage_details\": [\"a\\nb\"]\x7d").1
      = JsonVal.obj
          [("coverage_details", JsonVal.arr [JsonVal.str "a\\nb"]),
           ("exclusions", JsonVal.arr []), ("deductibles", JsonVal.arr []),
           ("premiums", JsonVal.arr []), ("claims_process", JsonVal.arr []),
           ("unusual_clauses", JsonVal.arr [])]
    ∧ (generate_summary (some "key") "t" none "p" "yes"
        "\x7b\"coverage_details\": [\"a\\nb\"]\x7d").1
      ≠ mkSummaryDict
          ["Could not generate detailed summary. Please try uploading the document again."] := by
  refine ⟨by decide, rfl, ?_⟩
  intro hc
  rw [show (generate_summary (some "key") "t" none "p" "yes"
      "\x7b\"coverage_details\": [\"a\\nb\"]\x7d").1
    = JsonVal.obj
        [("coverage_details", JsonVal.arr [JsonVal.str "a\\nb"]),
         ("exclusions", JsonVal.arr []), ("deductibles", JsonVal.arr []),
         ("premiums", JsonVal.arr []), ("claims_process", JsonVal.arr []),
         ("unusual_clauses", JsonVal.arr [])] from rfl] at hc
  simp [mkSummaryDict] at hc

/-- C10 (amended): the payload is backslash-doubled before parsing; a
payload whose escape sequence becomes invalid after doubling (an
escaped quote) fails to parse and yields the degraded record, while a
payload whose escapes stay valid after doubling (such as `\n`) still
parses, to content with the backslash doubled. -/
theorem backslash_doubling_amended :
    '\\' ∈ "\x7b\"deductibles\": [\"x\\\"y\"]\x7d".data
    ∧ json_loads "\x7b\"deductibles\": [\"x\\\"y\"]\x7d"
      = some (JsonVal.obj [("deductibles", JsonVal.arr [JsonVal.str "x\"y"])])
    ∧ json_loads (pyReplace "\x7b\"deductibles\": [\"x\\\"y\"]\x7d" "\\" "\\\\")
      = none
    ∧ (generate_summary (some "key") "t" none "p" "yes"
        "\x7b\"deductibles\": [\"x\\\"y\"]\x7d").1
      = mkSummaryDict
          ["Could not generate detailed summary. Please try uploading the document again."]
    ∧ json_loads (pyReplace "\x7b\"premiums\": [\"x\\ny\"]\x7d" "\\" "\\\\")
      = some (JsonVal.obj [("premiums", JsonVal.arr [JsonVal.str "x\\ny"])]) :=
  ⟨by decide, rfl, rfl, rfl, rfl⟩

/-- C5: on a successful upload the handler resets the conversation
history and re-derives extracted text, document metadata, readability
score and summary all from the newly extracted document, so the stored
summary and score are computed from exactly the stored text. -/
theorem upload_resets_derived_state (s : SessionState) (f : UploadedFile)
    (flesch : String → Option ℚ) (apiKey : Option String)
    (verResp mainResp : String) (t : String) (info : DocumentInfo)
    (h : extract_text f = .ok (t, info)) :
    (handleUpload s f flesch apiKey verResp mainResp).qa_history = []
    ∧ (handleUpload s f flesch apiKey verResp mainResp).extracted_text = t
    ∧ (handleUpload s f flesch apiKey verResp mainResp).document_info = some info
    ∧ (handleUpload s f flesch apiKey verResp mainResp).readability_score
        = some (calculate_readability_score flesch t)
    ∧ (handleUpload s f flesch apiKey verResp mainResp).summary
        = some (generate_summary apiKey t (some info)
            s.readability_preference verResp mainResp).1 := by
  unfold handleUpload
  rw [h]
  exact ⟨rfl, rfl, rfl, rfl, rfl⟩

/-- Witness for C5 at a concrete session, plain-text upload and
oracles. -/
theorem upload_resets_derived_state_witness :
    extract_text ⟨"text/plain", "a.txt", [], [], "", some "hello world"⟩
        = PyResult.ok ("hello world", ⟨"text/plain", "a.txt", none⟩)
    ∧ ((handleUpload
          ⟨"old", none, none, some 10, [("q", "a")],
            "Easy (Elementary School Level)"⟩
          ⟨"text/plain", "a.txt", [], [], "", some "hello world"⟩
          (fun _ => some 60) none "yes" "resp").qa_history = []
      ∧ (handleUpload
          ⟨"old", none, none, some 10, [("q", "a")],
            "Easy (Elementary School Level)"⟩
          ⟨"text/plain", "a.txt", [], [], "", some "hello world"⟩
          (fun _ => some 60) none "yes" "resp").extracted_text = "hello world"
      ∧ (handleUpload
          ⟨"old", none, none, some 10, [("q", "a")],
            "Easy (Elementary School Level)"⟩
          ⟨"text/plain", "a.txt", [], [], "", some "hello world"⟩
          (fun _ => some 60) none "yes" "resp").document_info
          = some ⟨"text/plain", "a.txt", none⟩
      ∧ (handleUpload
          ⟨"old", none, none, some 10, [("q", "a")],
            "Easy (Elementary School Level)"⟩
          ⟨"text/plain", "a.txt", [], [], "", some "hello world"⟩
          (fun _ => some 60) none "yes" "resp").readability_score
          = some (calculate_readability_score (fun _ => some 60) "hello world")
      ∧ (handleUpload
          ⟨"old", none, none, some 10, [("q", "a")],
            "Easy (Elementary School Level)"⟩
          ⟨"text/plain", "a.txt", [], [], "", some "hello world"⟩
          (fun _ => some 60) none "yes" "resp").summary
          = some (generate_summary none "hello world"
              (some ⟨"text/plain", "a.txt", none⟩)
              "Easy (Elementary School Level)" "yes" "resp").1) :=
  ⟨by decide,
   upload_resets_derived_state
     ⟨"old", none, none, some 10, [("q", "a")],
       "Easy (Elementary School Level)"⟩
     ⟨"text/plain", "a.txt", [], [], "", some "hello world"⟩
     (fun _ => some 60) none "yes" "resp" "hello world"
     ⟨"text/plain", "a.txt", none⟩ (by decide)⟩

/-- Two strings differ when a literal prefix of the first starts with a
different character from the second. -/
theorem append_ne_of_head (p tail t : String) (c d : Char) {l m : List Char}
    (hp : p.data = c :: l) (ht : t.data = d :: m) (hcd : c ≠ d) :
    p ++ tail ≠ t := by
  intro h
  have h2 := congrArg String.data h
  rw [String.data_append, hp, ht, List.cons_append] at h2
  injection h2 with h3 _
  exact hcd h3

/-- A string that is not a bullet line occurs in the flattened section
blocks exactly when it is the title of a section with a non-empty item
list. -/
theorem mem_blocks_iff (t : String) (ht : ∀ x : String, t ≠ "- " ++ x) :
    ∀ pairs : List (String × List String),
      (t ∈ (pairs.map sectionBlock).flatten ↔
        ∃ l, (t, l) ∈ pairs ∧ l ≠ []) := by
  intro pairs
  induction pairs with
  | nil => simp
  | cons p rest ih =>
      simp only [List.map_cons, List.flatten_cons, List.mem_append, ih,
        List.mem_cons]
      constructor
      · rintro (h1 | ⟨l, hl, hlne⟩)
        · unfold sectionBlock at h1
          cases hp : p.2.isEmpty with
          | true => simp [hp] at h1
          | false =>
              rw [hp] at h1
              simp only [Bool.false_eq_true, if_false] at h1
              rcases List.mem_cons.mp h1 with h3 | h4
              · refine ⟨p.2, Or.inl ?_, ?_⟩
                · rw [h3]
                · intro hc
                  rw [hc] at hp
                  simp at hp
              · rcases List.mem_map.mp h4 with ⟨item, _, hitem⟩
                exact absurd hitem.symm (ht _)
        · exact ⟨l, Or.inr hl, hlne⟩
      · rintro ⟨l, h1 | h2, hlne⟩
        · left
          unfold sectionBlock
          have h3 : p.1 = t := by rw [← h1]
          have h4 : p.2 = l := by rw [← h1]
          have h5 : p.2.isEmpty = false := by
            rw [h4]
            cases l with
            | nil => exact absurd rfl hlne
            | cons a as => rfl
          rw [h5]
          simp only [Bool.false_eq_true, if_false]
          rw [h3]
          exact List.mem_cons_self t _
        · right
          exact ⟨l, h2, hlne⟩

/-- Membership of a section title in the rendered report lines reduces
to the corresponding section being non-empty, provided the title is
distinct from the fixed lines and cannot be a date, score or bullet
line. -/
theorem title_mem_pdf_iff (s : Summary) (ot now : String) (sc : ℚ)
    (t : String) (c : Char) (l : List Char) (htd : t.data = c :: l)
    (hcG : c ≠ 'G') (hcR : c ≠ 'R') (hcDash : c ≠ '-')
    (h1 : t ≠ "ClearInsurance - Policy Summary")
    (h3 : t ≠ "Readability Analysis")
    (h5 : t ≠ "Policy Summary")
    (h7 : t ≠ pdfDisclaimer) :
    (t ∈ generate_pdf (some s) ot sc now ↔
      ∃ l2, (t, l2) ∈ sectionPairs s ∧ l2 ≠ []) := by
  have hgen : "Generated on: " ++ now ≠ t :=
    append_ne_of_head "Generated on: " now t 'G' c rfl htd (Ne.symm hcG)
  have hsc : "Readability Score: "
      ++ fmt1f sc ++ " - " ++ pdfDifficulty sc ≠ t := by
    rw [String.append_assoc, String.append_assoc]
    exact append_ne_of_head "Readability Score: " _ t 'R' c rfl htd (Ne.symm hcR)
  have hbul : ∀ x : String, t ≠ "- " ++ x := fun x h =>
    (append_ne_of_head "- " x t '-' c rfl htd (Ne.symm hcDash)) h.symm
  unfold generate_pdf
  simp only [List.mem_append, List.mem_cons, List.not_mem_nil, or_false]
  rw [mem_blocks_iff t hbul (sectionPairs s)]
  constructor
  · rintro (((h | h | h | h | h) | hE) | h)
    · exact absurd h h1
    · exact absurd h.symm hgen
    · exact absurd h h3
    · exact absurd h.symm hsc
    · exact absurd h h5
    · exact hE
    · exact absurd h h7
  · intro hE
    exact Or.inl (Or.inr hE)

/-- C8: the report renders one titled section per non-empty
SummaryRecord list and omits the title of every empty section; in
particular, for a summary with only coverage details and score 85.0,
the report contains the "Coverage Details" section, none of the other
five section titles, and the score line "Readability Score: 85.0 -
Clear" per the score-to-label mapping. -/
theorem generate_pdf_sections_spec :
    (∀ (s : Summary) (ot now : String) (sc : ℚ),
      ("Coverage Details" ∈ generate_pdf (some s) ot sc now ↔
          s.coverage_details ≠ [])
      ∧ ("Exclusions" ∈ generate_pdf (some s) ot sc now ↔ s.exclusions ≠ [])
      ∧ ("Deductibles" ∈ generate_pdf (some s) ot sc now ↔ s.deductibles ≠ [])
      ∧ ("Premiums" ∈ generate_pdf (some s) ot sc now ↔ s.premiums ≠ [])
      ∧ ("Claims Process" ∈ generate_pdf (some s) ot sc now ↔
          s.claims_process ≠ [])
      ∧ ("Unusual or Hidden Clauses" ∈ generate_pdf (some s) ot sc now ↔
          s.unusual_clauses ≠ []))
    ∧ ("Coverage Details" ∈ generate_pdf
          (some ⟨["Liability coverage up to $50,000."], [], [], [], [], []⟩)
          "orig" 85 "2024-01-01 12:00"
      ∧ "Exclusions" ∉ generate_pdf
          (some ⟨["Liability coverage up to $50,000."], [], [], [], [], []⟩)
          "orig" 85 "2024-01-01 12:00"
      ∧ "Deductibles" ∉ generate_pdf
          (some ⟨["Liability coverage up to $50,000."], [], [], [], [], []⟩)
          "orig" 85 "2024-01-01 12:00"
      ∧ "Premiums" ∉ generate_pdf
          (some ⟨["Liability coverage up to $50,000."], [], [], [], [], []⟩)
          "orig" 85 "2024-01-01 12:00"
      ∧ "Claims Process" ∉ generate_pdf
          (some ⟨["Liability coverage up to $50,000."], [], [], [], [], []⟩)
          "orig" 85 "2024-01-01 12:00"
      ∧ "Unusual or Hidden Clauses" ∉ generate_pdf
          (some ⟨["Liability coverage up to $50,000."], [], [], [], [], []⟩)
          "orig" 85 "2024-01-01 12:00"
      ∧ "Readability Score: 85.0 - Clear" ∈ generate_pdf
          (some ⟨["Liability coverage up to $50,000."], [], [], [], [], []⟩)
          "orig" 85 "2024-01-01 12:00") := by
  constructor
  · intro s ot now sc
    refine ⟨?_, ?_, ?_, ?_, ?_, ?_⟩
    · refine (title_mem_pdf_iff s ot now sc "Coverage Details" 'C' _ rfl
        (by decide) (by decide) (by decide) (by decide) (by decide)
        (by decide) (by decide)).trans ?_
      constructor
      · rintro ⟨l2, hmem, hne⟩
        simp [sectionPairs, Prod.mk.injEq] at hmem
        exact hmem ▸ hne
      · intro hne
        exact ⟨s.coverage_details, by simp [sectionPairs], hne⟩
    · refine (title_mem_pdf_iff s ot now sc "Exclusions" 'E' _ rfl
        (by decide) (by decide) (by decide) (by decide) (by decide)
        (by decide) (by decide)).trans ?_
      constructor
      · rintro ⟨l2, hmem, hne⟩
        simp [sectionPairs, Prod.mk.injEq] at hmem
        exact hmem ▸ hne
      · intro hne
        exact ⟨s.exclusions, by simp [sectionPairs], hne⟩
    · refine (title_mem_pdf_iff s ot now sc "Deductibles" 'D' _ rfl
        (by decide) (by decide) (by decide) (by decide) (by decide)
        (by decide) (by decide)).trans ?_
      constructor
      · rintro ⟨l2, hmem, hne⟩
        simp [sectionPairs, Prod.mk.injEq] at hmem
        exact hmem ▸ hne
      · intro hne
        exact ⟨s.deductibles, by simp [sectionPairs], hne⟩
    · refine (title_mem_pdf_iff s ot now sc "Premiums" 'P' _ rfl
        (by decide) (by decide) (by decide) (by decide) (by decide)
        (by decide) (by decide)).trans ?_
      constructor
      · rintro ⟨l2, hmem, hne⟩
        simp [sectionPairs, Prod.mk.injEq] at hmem
        exact hmem ▸ hne
      · intro hne
        exact ⟨s.premiums, by simp [sectionPairs], hne⟩
    · refine (title_mem_pdf_iff s ot now sc "Claims Process" 'C' _ rfl
        (by decide) (by decide) (by decide) (by decide) (by decide)
        (by decide) (by decide)).trans ?_
      constructor
      · rintro ⟨l2, hmem, hne⟩
        simp [sectionPairs, Prod.mk.injEq] at hmem
        exact hmem ▸ hne
      · intro hne
        exact ⟨s.claims_process, by simp [sectionPairs], hne⟩
    · refine (title_mem_pdf_iff s ot now sc "Unusual or Hidden Clauses" 'U' _
        rfl (by decide) (by decide) (by decide) (by decide) (by decide)
        (by decide) (by decide)).trans ?_
      constructor
      · rintro ⟨l2, hmem, hne⟩
        simp [sectionPairs, Prod.mk.injEq] at hmem
        exact hmem ▸ hne
      · intro hne
        exact ⟨s.unusual_clauses, by simp [sectionPairs], hne⟩
  · exact ⟨by decide, by decide, by decide, by decide, by decide, by decide,
      by decide⟩
